import Mathlib

/-!
Verification of the PrepWise Learner Profile and Mastery Engine.

Shallow embedding of the core logic of the repository:
  - `mastery.py` : `compute_topic_stats`, `compute_topic_mastery`, `classify_mastery`
  - `learning_path.py` : `mastery_level`, `suggest_activities`, `generate_learning_path`
  - `models.py` : `LearnerProfile.update_profile`
  - `logger.py` : `QuizLogger.get_student_logs`

Modelling conventions:
  - Python floats are modelled by `ℚ` (the arithmetic in the claims is exact).
  - Python `round(x, n)` is modelled by `roundTo n` (nearest integer scaled by
    `10^n`); no claim checked here evaluates `round` at a tie, so the
    tie-breaking rule (banker's rounding in Python) is immaterial.
  - Python dicts whose keys may be absent (the per-question answer dicts read
    with `.get(key, default)`) are modelled with `Option` fields, `none`
    meaning the key is absent.
  - The profile store (`self.profiles`) and the attempt-log CSV are carried
    explicitly as state; `datetime.now()` is an explicit `now` argument.
  - `sorted(..., key=lambda x: x[1])` (Python's stable ascending sort by the
    mastery score) is modelled by `List.insertionSort` on the score, which is
    the stable ascending sort by that key.
-/

/-- Embeds Python's `round(x, n)` on exact rationals as `round (x * 10^n) / 10^n`; it is Python's `round(x, n)` on exact rationals
(nearest value with `n` decimal places; ties do not occur in any claim). -/
def roundTo (n : ℕ) (x : ℚ) : ℚ := (round (x * 10 ^ n) : ℤ) / 10 ^ n

/-! Section: data model -/

/-- One value of the `quiz_answers` dict in `models.py` / `session_answers` in
the spec: a per-question dict whose keys `correct`, `skipped`, `response_time`
may be absent (`none`), read in the source with `.get(key, default)`. -/
structure Answer where
  correct : Option Bool
  skipped : Option Bool
  response_time : Option ℚ
deriving DecidableEq

/-- Type of `quiz_answers` : mapping question_id → answer dict, in iteration order. -/
abbrev QuizAnswers := List (String × Answer)

/-- One row of the attempt-log CSV (`data/logs.csv`), restricted to the columns
read by `compute_topic_stats` and `get_student_logs`. -/
structure LogEntry where
  student_id : String
  topic : String
  correct : Bool
  skipped : Bool
  response_time : ℚ
deriving DecidableEq

/-- Per-topic aggregate produced by `compute_topic_stats` (`mastery.py`). -/
structure TopicStats where
  accuracy : ℚ
  engagement : ℚ
  avg_time : ℚ
deriving DecidableEq

/-- A stored learner profile record, as written by `update_profile`
(`models.py`): the full dict including the bookkeeping fields. -/
structure StoredProfile where
  accuracy : ℚ
  pace : ℚ
  engagement : ℚ
  topic_mastery : List (String × ℚ)
  quiz_count : ℕ
  last_updated : Option String
deriving DecidableEq

/-- The dict `update_profile` hands back to its caller.  The bookkeeping
fields are `Option`s because the dict built on the non-empty path carries only
the four keys `accuracy`, `pace`, `engagement`, `topic_mastery`, while the
empty-input path returns the full stored dict; `none` = key absent. -/
structure ReturnedProfile where
  accuracy : ℚ
  pace : ℚ
  engagement : ℚ
  topic_mastery : List (String × ℚ)
  quiz_count : Option ℕ
  last_updated : Option String
deriving DecidableEq

/-! Section: logger.py, get_student_logs -/

/-- Embeds `QuizLogger.get_student_logs` : all CSV rows of one student, in file
order (`df[df['student_id'] == student_id]`). -/
def get_student_logs (logs : List LogEntry) (student_id : String) : List LogEntry :=
  logs.filter (fun e => e.student_id == student_id)

/-! Section: mastery.py -/

/-- The per-topic body of the `groupby` loop in `compute_topic_stats`:
`total = len(df)`, `correct = df["correct"].sum()`,
`skipped = df["skipped"].sum()`, accuracy, engagement, mean response time. -/
def topicStatsOfGroup (df : List LogEntry) : TopicStats :=
  let total : ℚ := df.length
  let correct : ℚ := (df.filter (fun e => e.correct)).length
  let skipped : ℚ := (df.filter (fun e => e.skipped)).length
  { accuracy := if total ≠ 0 then correct / total else 0
    engagement := if total ≠ 0 then 1 - skipped / total else 0
    avg_time := (df.map (fun e => e.response_time)).sum / df.length }

/-- Embeds `compute_topic_stats(logs_df)` : group rows by topic and aggregate.  The
groups are keyed by the distinct topics (here in order of first occurrence;
the result is a mapping, ordering irrelevant, and a topic with zero rows is
absent because it is not a key of the groupby). -/
def compute_topic_stats (logs_df : List LogEntry) : List (String × TopicStats) :=
  ((logs_df.map (fun e => e.topic)).dedup).map
    (fun t => (t, topicStatsOfGroup (logs_df.filter (fun e => e.topic == t))))

/-- The mastery formula applied to one topic's stats:
`round(0.5*accuracy + 0.3*(1/(1+avg_time)) + 0.2*engagement, 3)`. -/
def masteryScore (s : TopicStats) : ℚ :=
  roundTo 3 (0.5 * s.accuracy + 0.3 * (1 / (1 + s.avg_time)) + 0.2 * s.engagement)

/-- Embeds `compute_topic_mastery(topic_stats)` (`mastery.py`). -/
def compute_topic_mastery (topic_stats : List (String × TopicStats)) : List (String × ℚ) :=
  topic_stats.map (fun p => (p.1, masteryScore p.2))

/-- Embeds `classify_mastery(score)` (`mastery.py`). -/
def classify_mastery (score : ℚ) : String :=
  if score < 0.4 then "Not Mastered"
  else if score < 0.7 then "Partially Mastered"
  else "Mastered"

/-! Section: learning_path.py -/

/-- Embeds `mastery_level(score)` (`learning_path.py`). -/
def mastery_level (score : ℚ) : String :=
  if score < 0.4 then "Not Mastered"
  else if score < 0.7 then "Partially Mastered"
  else "Mastered"

/-- Embeds `suggest_activities(level)` (`learning_path.py`). -/
def suggest_activities (level : String) : List String :=
  if level = "Not Mastered" then ["Concept review", "Worked examples", "Easy practice"]
  else if level = "Partially Mastered" then ["Mixed practice", "Timed questions"]
  else ["Challenge problems", "Peer explanation"]

/-- A step of the generated learning path.  `study` and `revision` dicts carry
a `"type"` key in the source; the single dict emitted on the empty-mastery
branch carries no `"type"` key, hence the separate `general` constructor. -/
inductive PathStep where
  | study (topic : String) (mastery_score : ℚ) (level : String) (difficulty : ℚ)
      (time_minutes : ℤ) (activities : List String)
  | revision (topic : String) (time_minutes : ℤ) (focus : String)
  | general (topic : String) (time_minutes : ℚ) (activities : List String)
deriving DecidableEq

/-- Embeds `sorted(topic_mastery.items(), key=lambda x: x[1])` : Python's stable
ascending sort by the score component. -/
def sorted_topics (topic_mastery : List (String × ℚ)) : List (String × ℚ) :=
  List.insertionSort (fun a b => a.2 ≤ b.2) topic_mastery

/-- Embeds `inverse_scores = [1 - score for _, score in sorted_topics]`. -/
def inverse_scores (st : List (String × ℚ)) : List ℚ :=
  st.map (fun p => 1 - p.2)

/-- Embeds `total_inverse = sum(inverse_scores) if sum(inverse_scores) > 0 else len(sorted_topics)`. -/
def total_inverse (st : List (String × ℚ)) : ℚ :=
  if (inverse_scores st).sum > 0 then (inverse_scores st).sum else st.length

/-- The body of the `for topic, score in sorted_topics` loop of
`generate_learning_path`: one `study` step, followed by a `revision` step when
`score < 0.5`. -/
def pathStepsFor (topic_difficulty : List (String × ℚ)) (ti daily_time : ℚ)
    (p : String × ℚ) : List PathStep :=
  let level := mastery_level p.2
  let weight := (1 - p.2) / ti
  let allocated_time := max 10 (round (weight * daily_time))
  PathStep.study p.1 (roundTo 3 p.2) level ((List.lookup p.1 topic_difficulty).getD 2)
      allocated_time (suggest_activities level)
    :: (if p.2 < 0.5 then [PathStep.revision p.1 10 "Concept reinforcement + recall"] else [])

/-- Embeds `generate_learning_path(topic_mastery, topic_difficulty, daily_time=60)`
(`learning_path.py`); the Python default `daily_time=60` is passed explicitly
by callers of this definition. -/
def generate_learning_path (topic_mastery topic_difficulty : List (String × ℚ))
    (daily_time : ℚ) : List PathStep :=
  if topic_mastery.isEmpty then
    [PathStep.general "General Review" daily_time ["Light revision", "Practice questions"]]
  else
    let st := sorted_topics topic_mastery
    st.flatMap (pathStepsFor topic_difficulty (total_inverse st) daily_time)

/-! Section: models.py, LearnerProfile.update_profile.

The mutable state touched by `update_profile` is carried explicitly: the
in-memory profile store `self.profiles` (a dict student_id → profile) and the
attempt-log CSV read through `QuizLogger.get_student_logs`. -/

/-- The state an `update_profile` call reads and writes. -/
structure UpdateState where
  profiles : List (String × StoredProfile)
  logs : List LogEntry
deriving DecidableEq

/-- What an `update_profile` call produces: the dict returned to the caller,
the profile store afterwards, and whether `_save_profiles` was called. -/
structure UpdateResult where
  returned : ReturnedProfile
  profiles : List (String × StoredProfile)
  saved : Bool
deriving DecidableEq

/-- Embeds `self.profiles.get(student_id)` / `get_profile(student_id)`. -/
def lookupProfile (profiles : List (String × StoredProfile)) (student_id : String) :
    Option StoredProfile :=
  List.lookup student_id profiles

/-- Embeds `self.profiles[student_id] = updated_profile` : dict assignment (replace
the existing binding in place, else append a new one). -/
def setProfile (profiles : List (String × StoredProfile)) (student_id : String)
    (v : StoredProfile) : List (String × StoredProfile) :=
  match profiles with
  | [] => [(student_id, v)]
  | (k, w) :: rest =>
      if k = student_id then (student_id, v) :: rest
      else (k, w) :: setProfile rest student_id v

/-- Embeds `correct_answers = sum(1 for a in quiz_answers.values() if a.get('correct', False))`. -/
def correct_answers (quiz_answers : QuizAnswers) : ℕ :=
  (quiz_answers.filter (fun p => p.2.correct.getD false)).length

/-- Embeds `skipped_questions = sum(1 for a in quiz_answers.values() if a.get('skipped', False))`. -/
def skipped_questions (quiz_answers : QuizAnswers) : ℕ :=
  (quiz_answers.filter (fun p => p.2.skipped.getD false)).length

/-- Embeds `response_times = [a.get('response_time', 0) for a in quiz_answers.values()]`. -/
def response_times (quiz_answers : QuizAnswers) : List ℚ :=
  quiz_answers.map (fun p => p.2.response_time.getD 0)

/-- Embeds `current_accuracy = correct_answers / total_questions if total_questions else 0`. -/
def current_accuracy (quiz_answers : QuizAnswers) : ℚ :=
  if quiz_answers.length ≠ 0 then (correct_answers quiz_answers : ℚ) / quiz_answers.length else 0

/-- Embeds `current_pace = sum(response_times) / len(response_times) if response_times else 0`. -/
def current_pace (quiz_answers : QuizAnswers) : ℚ :=
  if (response_times quiz_answers).length ≠ 0 then
    (response_times quiz_answers).sum / (response_times quiz_answers).length
  else 0

/-- Embeds `current_engagement = 1 - (skipped_questions / total_questions) if total_questions else 0`. -/
def current_engagement (quiz_answers : QuizAnswers) : ℚ :=
  if quiz_answers.length ≠ 0 then 1 - (skipped_questions quiz_answers : ℚ) / quiz_answers.length
  else 0

/-- The default dict `update_profile` uses when no profile is stored:
`{'accuracy': 0.0, 'pace': 0.0, 'engagement': 0.0, 'topic_mastery': {},
'quiz_count': 0, 'last_updated': None}`. -/
def defaultStoredProfile : StoredProfile :=
  { accuracy := 0, pace := 0, engagement := 0, topic_mastery := [],
    quiz_count := 0, last_updated := none }

/-- Embeds `existing_profile = self.profiles.get(student_id, default)`. -/
def existing_profile (st : UpdateState) (student_id : String) : StoredProfile :=
  (lookupProfile st.profiles student_id).getD defaultStoredProfile

/-- Embeds `weight = 0.7 if quiz_count > 0 else 1.0`. -/
def blendWeight (quiz_count : ℕ) : ℚ :=
  if quiz_count > 0 then 0.7 else 1.0

/-- The recomputed `topic_mastery` of one `update_profile` call:
`compute_topic_mastery(compute_topic_stats(student_logs))` when the student's
log history is non-empty, `{}` otherwise. -/
def recomputedMastery (st : UpdateState) (student_id : String) : List (String × ℚ) :=
  let student_logs := get_student_logs st.logs student_id
  if ¬ student_logs.isEmpty then compute_topic_mastery (compute_topic_stats student_logs)
  else []

/-- Embeds `LearnerProfile.update_profile(student_id, quiz_answers)` (`models.py`).
`now` stands for `datetime.now().isoformat()`.  On empty input the call
returns `self.get_profile(student_id) or {zero default}` — the full stored
dict when one exists — and neither mutates nor saves the store. -/
def update_profile (st : UpdateState) (student_id : String) (quiz_answers : QuizAnswers)
    (now : String) : UpdateResult :=
  if quiz_answers.isEmpty then
    match lookupProfile st.profiles student_id with
    | some p =>
        { returned := { accuracy := p.accuracy, pace := p.pace, engagement := p.engagement,
                        topic_mastery := p.topic_mastery, quiz_count := some p.quiz_count,
                        last_updated := p.last_updated },
          profiles := st.profiles, saved := false }
    | none =>
        { returned := { accuracy := 0, pace := 0, engagement := 0, topic_mastery := [],
                        quiz_count := none, last_updated := none },
          profiles := st.profiles, saved := false }
  else
    let existing := existing_profile st student_id
    let quiz_count := existing.quiz_count
    let weight := blendWeight quiz_count
    let new_accuracy := existing.accuracy * (1 - weight) + current_accuracy quiz_answers * weight
    let new_pace := existing.pace * (1 - weight) + current_pace quiz_answers * weight
    let new_engagement :=
      existing.engagement * (1 - weight) + current_engagement quiz_answers * weight
    let topic_mastery := recomputedMastery st student_id
    let updated_profile : StoredProfile :=
      { accuracy := roundTo 3 new_accuracy, pace := roundTo 2 new_pace,
        engagement := roundTo 3 new_engagement, topic_mastery := topic_mastery,
        quiz_count := quiz_count + 1, last_updated := some now }
    { returned := { accuracy := updated_profile.accuracy, pace := updated_profile.pace,
                    engagement := updated_profile.engagement, topic_mastery := topic_mastery,
                    quiz_count := none, last_updated := none },
      profiles := setProfile st.profiles student_id updated_profile,
      saved := true }

/-! Section: definitions used only in claim statements -/

/-- The spec's wording of the allocation denominator: the sum of
`(1 - mastery_i)` over the input mapping, "falling back to the topic count
when that sum is zero".  Stated from the spec's words, to be compared with
the source's `total_inverse` (which tests `sum > 0` on the sorted list). -/
def spec_total_inverse (topic_mastery : List (String × ℚ)) : ℚ :=
  if (topic_mastery.map (fun p => 1 - p.2)).sum = 0 then topic_mastery.length
  else (topic_mastery.map (fun p => 1 - p.2)).sum

/-- The `(topic, mastery_score)` pairs of the `study` steps of a path, in
order of appearance. -/
def studyPairs : List PathStep → List (String × ℚ)
  | [] => []
  | PathStep.study t ms _ _ _ _ :: rest => (t, ms) :: studyPairs rest
  | PathStep.revision _ _ _ :: rest => studyPairs rest
  | PathStep.general _ _ _ :: rest => studyPairs rest

/-- Replace each absent key of an answer dict by the default the source reads
with `.get`: `correct=False`, `skipped=False`, `response_time=0`. -/
def fillAnswer (a : Answer) : Answer :=
  { correct := some (a.correct.getD false), skipped := some (a.skipped.getD false),
    response_time := some (a.response_time.getD 0) }

instance : IsTotal (String × ℚ) (fun a b => a.2 ≤ b.2) :=
  ⟨fun a b => le_total a.2 b.2⟩

instance : IsTrans (String × ℚ) (fun a b => a.2 ≤ b.2) :=
  ⟨fun _ _ _ hab hbc => le_trans hab hbc⟩

/-! Section: helper lemmas -/

/-- Rounding via `roundTo` is monotone. -/
theorem roundTo_mono (n : ℕ) {x y : ℚ} (h : x ≤ y) : roundTo n x ≤ roundTo n y := by
  unfold roundTo
  have hp : (0 : ℚ) < 10 ^ n := by positivity
  rw [div_le_div_iff_of_pos_right hp]
  have : round (x * 10 ^ n) ≤ round (y * 10 ^ n) := by
    rw [round_eq, round_eq]
    exact Int.floor_le_floor (by nlinarith)
  exact_mod_cast this

/-- Looking up a key after dict assignment finds the assigned value. -/
theorem lookupProfile_setProfile (ps : List (String × StoredProfile)) (k : String)
    (v : StoredProfile) : lookupProfile (setProfile ps k v) k = some v := by
  induction ps with
  | nil => simp [setProfile, lookupProfile, List.lookup]
  | cons hd tl ih =>
      by_cases hk : hd.1 = k
      · simp [setProfile, hk, lookupProfile, List.lookup]
      · have : (k == hd.1) = false := by
          simp [beq_iff_eq]
          exact fun h => hk h.symm
        simp only [setProfile, hk, if_false, lookupProfile, List.lookup, this]
        exact ih

/-- Mapping a function over a list does not change emptiness. -/
theorem isEmpty_map_eq {α β : Type} (f : α → β) (l : List α) :
    (l.map f).isEmpty = l.isEmpty := by
  cases l <;> rfl

/-- Counting answers flagged correct is unchanged by filling in the absent
keys with their `.get` defaults. -/
theorem correct_answers_map_fill (qa : QuizAnswers) :
    correct_answers (qa.map (fun p => (p.1, fillAnswer p.2))) = correct_answers qa := by
  simp only [correct_answers, List.filter_map, List.length_map]
  rfl

/-- Counting skipped answers is unchanged by filling in the absent keys. -/
theorem skipped_questions_map_fill (qa : QuizAnswers) :
    skipped_questions (qa.map (fun p => (p.1, fillAnswer p.2))) = skipped_questions qa := by
  simp only [skipped_questions, List.filter_map, List.length_map]
  rfl

/-- The response-time list is unchanged by filling in the absent keys. -/
theorem response_times_map_fill (qa : QuizAnswers) :
    response_times (qa.map (fun p => (p.1, fillAnswer p.2))) = response_times qa := by
  simp [response_times, List.map_map, Function.comp, fillAnswer]

/-- Session accuracy is unchanged by filling in the absent keys. -/
theorem current_accuracy_map_fill (qa : QuizAnswers) :
    current_accuracy (qa.map (fun p => (p.1, fillAnswer p.2))) = current_accuracy qa := by
  simp [current_accuracy, correct_answers_map_fill]

/-- Session pace is unchanged by filling in the absent keys. -/
theorem current_pace_map_fill (qa : QuizAnswers) :
    current_pace (qa.map (fun p => (p.1, fillAnswer p.2))) = current_pace qa := by
  simp [current_pace, response_times_map_fill]

/-- Session engagement is unchanged by filling in the absent keys. -/
theorem current_engagement_map_fill (qa : QuizAnswers) :
    current_engagement (qa.map (fun p => (p.1, fillAnswer p.2))) = current_engagement qa := by
  simp [current_engagement, skipped_questions_map_fill]

/-! Section: claim theorems -/

/-- C3: for every TopicStats entry with accuracy ∈ [0,1], engagement ∈ [0,1]
and avg_time ≥ 0, the Mastery Scorer produces
`round(0.5*accuracy + 0.3*(1/(1+avg_time)) + 0.2*engagement, 3)`, this value
lies in [0,1], and the input accuracy=1, avg_time=0, engagement=1 yields
exactly 1. -/
theorem masteryScore_formula_bounds_c3 (s : TopicStats)
    (ha0 : 0 ≤ s.accuracy) (ha1 : s.accuracy ≤ 1)
    (he0 : 0 ≤ s.engagement) (he1 : s.engagement ≤ 1) (ht : 0 ≤ s.avg_time) :
    masteryScore s
        = roundTo 3 (0.5 * s.accuracy + 0.3 * (1 / (1 + s.avg_time)) + 0.2 * s.engagement)
      ∧ 0 ≤ masteryScore s ∧ masteryScore s ≤ 1
      ∧ masteryScore { accuracy := 1, engagement := 1, avg_time := 0 } = 1 := by
  have hden : (0 : ℚ) < 1 + s.avg_time := by linarith
  have hinv0 : 0 < 1 / (1 + s.avg_time) := by positivity
  have hinv1 : 1 / (1 + s.avg_time) ≤ 1 := by
    rw [div_le_one hden]; linarith
  have hraw0 : 0 ≤ 0.5 * s.accuracy + 0.3 * (1 / (1 + s.avg_time)) + 0.2 * s.engagement := by
    nlinarith
  have hraw1 : 0.5 * s.accuracy + 0.3 * (1 / (1 + s.avg_time)) + 0.2 * s.engagement ≤ 1 := by
    nlinarith
  have h0 : roundTo 3 (0 : ℚ) = 0 := by norm_num [roundTo, round_eq]
  have h1 : roundTo 3 (1 : ℚ) = 1 := by norm_num [roundTo, round_eq]
  refine ⟨rfl, ?_, ?_, ?_⟩
  · have := roundTo_mono 3 hraw0
    rwa [h0] at this
  · have := roundTo_mono 3 hraw1
    rwa [h1] at this
  · norm_num [masteryScore, roundTo, round_eq]

/-- C3 witness: the theorem applied at accuracy=1, engagement=1, avg_time=0. -/
theorem masteryScore_formula_bounds_c3_witness :
    0 ≤ masteryScore { accuracy := 1, engagement := 1, avg_time := (0 : ℚ) } ∧
    masteryScore { accuracy := 1, engagement := 1, avg_time := (0 : ℚ) } ≤ 1 :=
  ⟨(masteryScore_formula_bounds_c3 ⟨1, 1, 0⟩ (by norm_num) (by norm_num) (by norm_num)
      (by norm_num) (by norm_num)).2.1,
   (masteryScore_formula_bounds_c3 ⟨1, 1, 0⟩ (by norm_num) (by norm_num) (by norm_num)
      (by norm_num) (by norm_num)).2.2.1⟩

/-- C9: `classify_mastery` (mastery.py) and `mastery_level` (learning_path.py)
agree on every score, and both realize the thresholds: "Not Mastered" below
0.4, "Partially Mastered" below 0.7, "Mastered" otherwise. -/
theorem classify_mastery_eq_mastery_level_c9 (score : ℚ) :
    classify_mastery score = mastery_level score ∧
    mastery_level score =
      (if score < 0.4 then "Not Mastered"
       else if score < 0.7 then "Partially Mastered"
       else "Mastered") :=
  ⟨rfl, rfl⟩

/-- C7: with empty topic_mastery, `generate_learning_path` returns exactly one
step, a "General Review" step consuming the whole daily_time budget and
carrying the two fixed activities (the source's default budget is 60). -/
theorem generate_learning_path_empty_c7 (topic_difficulty : List (String × ℚ)) (daily_time : ℚ) :
    generate_learning_path [] topic_difficulty daily_time
        = [PathStep.general "General Review" daily_time ["Light revision", "Practice questions"]]
      ∧ (generate_learning_path [] topic_difficulty daily_time).length = 1 :=
  ⟨rfl, rfl⟩

/-- C5: `update_profile` on empty session answers is a no-op: the profile
store is unchanged (so no quiz_count increment), no save happens, and the
returned dict is the stored profile (the full dict) or the zero default. -/
theorem update_profile_empty_noop_c5 (st : UpdateState) (student_id now : String) :
    (update_profile st student_id [] now).profiles = st.profiles
      ∧ (update_profile st student_id [] now).saved = false
      ∧ (update_profile st student_id [] now).returned =
          (match lookupProfile st.profiles student_id with
           | some p =>
               { accuracy := p.accuracy, pace := p.pace, engagement := p.engagement,
                 topic_mastery := p.topic_mastery, quiz_count := some p.quiz_count,
                 last_updated := p.last_updated }
           | none =>
               { accuracy := 0, pace := 0, engagement := 0, topic_mastery := [],
                 quiz_count := none, last_updated := none }) := by
  unfold update_profile
  cases h : lookupProfile st.profiles student_id <;> simp [h]

/-- C6 counterexample: the claim says bookkeeping fields are never included in
the returned value, but on empty session answers with a stored profile the
source returns the full stored dict: here the returned dict carries
`quiz_count = 3` and a `last_updated` value. -/
theorem update_profile_returned_bookkeeping_c6_counterexample :
    (update_profile
        { profiles := [("s1", { accuracy := 0.75, pace := 25.5, engagement := 0.9,
                                topic_mastery := [], quiz_count := 3,
                                last_updated := some "2024-01-01T00:00:00" })],
          logs := [] } "s1" [] "now").returned.quiz_count = some 3
    ∧ (update_profile
        { profiles := [("s1", { accuracy := 0.75, pace := 25.5, engagement := 0.9,
                                topic_mastery := [], quiz_count := 3,
                                last_updated := some "2024-01-01T00:00:00" })],
          logs := [] } "s1" [] "now").returned.last_updated = some "2024-01-01T00:00:00" := by
  constructor <;> rfl

/-- C6 (amended): for every call with NON-EMPTY session answers the returned
dict carries exactly accuracy, pace, engagement, topic_mastery of the stored
updated profile and omits quiz_count and last_updated; on empty input with a
stored profile the full stored dict (bookkeeping included) is returned. -/
theorem update_profile_returned_subset_c6 (st : UpdateState) (student_id now : String)
    (quiz_answers : QuizAnswers) (h : quiz_answers ≠ []) :
    ∃ stored,
      lookupProfile (update_profile st student_id quiz_answers now).profiles student_id
          = some stored
      ∧ (update_profile st student_id quiz_answers now).returned =
          { accuracy := stored.accuracy, pace := stored.pace, engagement := stored.engagement,
            topic_mastery := stored.topic_mastery, quiz_count := none, last_updated := none } := by
  cases quiz_answers with
  | nil => cases h rfl
  | cons a l => exact ⟨_, lookupProfile_setProfile _ _ _, rfl⟩

/-- C6 witness: the amended theorem applied at a concrete non-empty session. -/
theorem update_profile_returned_subset_c6_witness :
    ∃ stored,
      lookupProfile (update_profile { profiles := [], logs := [] } "s"
          [("q1", { correct := some true, skipped := some false, response_time := some 10 })]
          "t").profiles "s" = some stored
      ∧ (update_profile { profiles := [], logs := [] } "s"
          [("q1", { correct := some true, skipped := some false, response_time := some 10 })]
          "t").returned =
          { accuracy := stored.accuracy, pace := stored.pace, engagement := stored.engagement,
            topic_mastery := stored.topic_mastery, quiz_count := none, last_updated := none } :=
  update_profile_returned_subset_c6 { profiles := [], logs := [] } "s" "t"
    [("q1", { correct := some true, skipped := some false, response_time := some 10 })]
    (by simp)

/-- C1: on every non-empty session the blend weight is 1.0 when the stored
quiz_count is 0 (also when no profile is stored, via the zero default) and
0.7 otherwise; each stored rolling metric is
`existing*(1-weight) + current*weight` with accuracy and engagement rounded
to 3 decimals and pace to 2; and quiz_count goes up by exactly 1. -/
theorem update_profile_blend_c1 (st : UpdateState) (student_id now : String)
    (quiz_answers : QuizAnswers) (h : quiz_answers ≠ []) :
    ∃ stored,
      lookupProfile (update_profile st student_id quiz_answers now).profiles student_id
          = some stored
      ∧ blendWeight (existing_profile st student_id).quiz_count
          = (if (existing_profile st student_id).quiz_count = 0 then (1 : ℚ) else 0.7)
      ∧ stored.accuracy = roundTo 3
          ((existing_profile st student_id).accuracy
              * (1 - blendWeight (existing_profile st student_id).quiz_count)
            + current_accuracy quiz_answers
              * blendWeight (existing_profile st student_id).quiz_count)
      ∧ stored.pace = roundTo 2
          ((existing_profile st student_id).pace
              * (1 - blendWeight (existing_profile st student_id).quiz_count)
            + current_pace quiz_answers
              * blendWeight (existing_profile st student_id).quiz_count)
      ∧ stored.engagement = roundTo 3
          ((existing_profile st student_id).engagement
              * (1 - blendWeight (existing_profile st student_id).quiz_count)
            + current_engagement quiz_answers
              * blendWeight (existing_profile st student_id).quiz_count)
      ∧ stored.quiz_count = (existing_profile st student_id).quiz_count + 1 := by
  cases quiz_answers with
  | nil => cases h rfl
  | cons a l =>
      refine ⟨_, lookupProfile_setProfile _ _ _, ?_, rfl, rfl, rfl, rfl⟩
      cases (existing_profile st student_id).quiz_count <;> norm_num [blendWeight]

/-- C1 witness: the theorem applied at a concrete one-question session on an
empty store. -/
theorem update_profile_blend_c1_witness :
    ∃ stored,
      lookupProfile (update_profile { profiles := [], logs := [] } "s"
          [("q1", { correct := some true, skipped := some false, response_time := some 10 })]
          "t").profiles "s" = some stored
      ∧ blendWeight (existing_profile { profiles := [], logs := [] } "s").quiz_count
          = (if (existing_profile { profiles := [], logs := [] } "s").quiz_count = 0
             then (1 : ℚ) else 0.7)
      ∧ stored.accuracy = roundTo 3
          ((existing_profile { profiles := [], logs := [] } "s").accuracy
              * (1 - blendWeight (existing_profile { profiles := [], logs := [] } "s").quiz_count)
            + current_accuracy
                [("q1", { correct := some true, skipped := some false, response_time := some 10 })]
              * blendWeight (existing_profile { profiles := [], logs := [] } "s").quiz_count)
      ∧ stored.pace = roundTo 2
          ((existing_profile { profiles := [], logs := [] } "s").pace
              * (1 - blendWeight (existing_profile { profiles := [], logs := [] } "s").quiz_count)
            + current_pace
                [("q1", { correct := some true, skipped := some false, response_time := some 10 })]
              * blendWeight (existing_profile { profiles := [], logs := [] } "s").quiz_count)
      ∧ stored.engagement = roundTo 3
          ((existing_profile { profiles := [], logs := [] } "s").engagement
              * (1 - blendWeight (existing_profile { profiles := [], logs := [] } "s").quiz_count)
            + current_engagement
                [("q1", { correct := some true, skipped := some false, response_time := some 10 })]
              * blendWeight (existing_profile { profiles := [], logs := [] } "s").quiz_count)
      ∧ stored.quiz_count = (existing_profile { profiles := [], logs := [] } "s").quiz_count + 1 :=
  update_profile_blend_c1 { profiles := [], logs := [] } "s" "t"
    [("q1", { correct := some true, skipped := some false, response_time := some 10 })]
    (by simp)

/-- C2: on every non-empty session the topic_mastery handed back is the
Mastery Scorer applied to the Topic Statistics Aggregator over the student's
complete attempt-log history, empty when the student has no logged attempts;
and it does not depend on the previously stored profiles (in particular not
on the stored topic_mastery). -/
theorem update_profile_mastery_c2 (st : UpdateState) (student_id now : String)
    (quiz_answers : QuizAnswers) (h : quiz_answers ≠ []) :
    (update_profile st student_id quiz_answers now).returned.topic_mastery =
      (if get_student_logs st.logs student_id = [] then []
       else compute_topic_mastery (compute_topic_stats (get_student_logs st.logs student_id)))
    ∧ ∀ profiles2 : List (String × StoredProfile),
        (update_profile { profiles := profiles2, logs := st.logs } student_id quiz_answers
            now).returned.topic_mastery
          = (update_profile st student_id quiz_answers now).returned.topic_mastery := by
  cases quiz_answers with
  | nil => cases h rfl
  | cons a l =>
      constructor
      · show recomputedMastery st student_id = _
        by_cases hsl : get_student_logs st.logs student_id = [] <;>
          simp [recomputedMastery, hsl, List.isEmpty_iff]
      · intro profiles2
        rfl

/-- C2 witness: the theorem applied at a concrete session, with one logged
attempt for the student. -/
theorem update_profile_mastery_c2_witness :
    (update_profile
        { profiles := [],
          logs := [{ student_id := "s", topic := "fractions", correct := true,
                     skipped := false, response_time := 10 }] } "s"
        [("q1", { correct := some true, skipped := some false, response_time := some 10 })]
        "t").returned.topic_mastery =
      (if get_student_logs
            [{ student_id := "s", topic := "fractions", correct := true,
               skipped := false, response_time := 10 }] "s" = [] then []
       else compute_topic_mastery (compute_topic_stats (get_student_logs
            [{ student_id := "s", topic := "fractions", correct := true,
               skipped := false, response_time := 10 }] "s"))) :=
  (update_profile_mastery_c2
    { profiles := [],
      logs := [{ student_id := "s", topic := "fractions", correct := true,
                 skipped := false, response_time := 10 }] } "s" "t"
    [("q1", { correct := some true, skipped := some false, response_time := some 10 })]
    (by simp)).1

/-- C10: a call with non-empty session answers behaves on an answer dict with
missing `correct` / `skipped` / `response_time` keys exactly as on the dict
with those keys filled by the defaults `False`, `False`, `0` (no error is
possible: the embedding is total), and the session metrics agree. -/
theorem update_profile_missing_keys_c10 (st : UpdateState) (student_id now : String)
    (quiz_answers : QuizAnswers) (h : quiz_answers ≠ []) :
    update_profile st student_id quiz_answers now
        = update_profile st student_id (quiz_answers.map (fun p => (p.1, fillAnswer p.2))) now
      ∧ current_accuracy (quiz_answers.map (fun p => (p.1, fillAnswer p.2)))
          = current_accuracy quiz_answers
      ∧ current_pace (quiz_answers.map (fun p => (p.1, fillAnswer p.2)))
          = current_pace quiz_answers
      ∧ current_engagement (quiz_answers.map (fun p => (p.1, fillAnswer p.2)))
          = current_engagement quiz_answers := by
  refine ⟨?_, current_accuracy_map_fill quiz_answers, current_pace_map_fill quiz_answers,
    current_engagement_map_fill quiz_answers⟩
  simp only [update_profile, isEmpty_map_eq, current_accuracy_map_fill,
    current_pace_map_fill, current_engagement_map_fill]

/-- C10 witness: the theorem applied at a one-question session whose answer
dict has all three keys absent. -/
theorem update_profile_missing_keys_c10_witness :
    update_profile { profiles := [], logs := [] } "s"
        [("q1", { correct := none, skipped := none, response_time := none })] "t"
      = update_profile { profiles := [], logs := [] } "s"
        ([("q1", { correct := none, skipped := none, response_time := none })].map
          (fun p => (p.1, fillAnswer p.2))) "t" :=
  (update_profile_missing_keys_c10 { profiles := [], logs := [] } "s" "t"
    [("q1", { correct := none, skipped := none, response_time := none })] (by simp)).1

/-- With all mastery scores in [0,1], the source's allocation denominator
(`sum > 0` test, computed on the sorted list) equals the spec's wording
(sum of `1 - mastery_i` over the mapping, topic count when that sum is
zero). -/
theorem total_inverse_sorted_eq_spec (tm : List (String × ℚ))
    (hb : ∀ p ∈ tm, 0 ≤ p.2 ∧ p.2 ≤ 1) :
    total_inverse (sorted_topics tm) = spec_total_inverse tm := by
  have hperm : List.Perm (sorted_topics tm) tm := List.perm_insertionSort _ tm
  have hsum : (inverse_scores (sorted_topics tm)).sum = (tm.map (fun p => 1 - p.2)).sum := by
    unfold inverse_scores
    exact (hperm.map (fun p => 1 - p.2)).sum_eq
  have hlen : (sorted_topics tm).length = tm.length := hperm.length_eq
  have hnn : 0 ≤ (tm.map (fun p => 1 - p.2)).sum := by
    apply List.sum_nonneg
    intro x hx
    obtain ⟨p, hp, rfl⟩ := List.mem_map.1 hx
    linarith [(hb p hp).2]
  unfold total_inverse spec_total_inverse
  rw [hsum, hlen]
  by_cases hz : (tm.map (fun p => 1 - p.2)).sum = 0
  · simp [hz]
  · have hpos : 0 < (tm.map (fun p => 1 - p.2)).sum := lt_of_le_of_ne hnn (Ne.symm hz)
    simp [hz, hpos]

/-- C4: with non-empty topic_mastery (scores in [0,1] per the data model),
the generated path is exactly: for each topic in sorted order, a study step
allocated `max(10, round(((1-mastery)/total_inverse)*daily_time))` minutes —
with `total_inverse` the sum of `1-mastery_i`, topic count when that sum is
zero — followed by a 10-minute "Concept reinforcement + recall" revision step
iff mastery < 0.5; hence every study step gets at least 10 minutes. -/
theorem generate_learning_path_alloc_c4 (tm td : List (String × ℚ)) (dt : ℚ)
    (hne : tm ≠ []) (hb : ∀ p ∈ tm, 0 ≤ p.2 ∧ p.2 ≤ 1) :
    generate_learning_path tm td dt =
      (sorted_topics tm).flatMap (fun p =>
        PathStep.study p.1 (roundTo 3 p.2) (mastery_level p.2)
            ((List.lookup p.1 td).getD 2)
            (max 10 (round ((1 - p.2) / spec_total_inverse tm * dt)))
            (suggest_activities (mastery_level p.2))
          :: (if p.2 < 0.5 then [PathStep.revision p.1 10 "Concept reinforcement + recall"]
              else []))
    ∧ ∀ topic ms lv df mins acts,
        PathStep.study topic ms lv df mins acts ∈ generate_learning_path tm td dt →
          10 ≤ mins := by
  have hti := total_inverse_sorted_eq_spec tm hb
  have h1 : generate_learning_path tm td dt =
      (sorted_topics tm).flatMap (fun p =>
        PathStep.study p.1 (roundTo 3 p.2) (mastery_level p.2)
            ((List.lookup p.1 td).getD 2)
            (max 10 (round ((1 - p.2) / spec_total_inverse tm * dt)))
            (suggest_activities (mastery_level p.2))
          :: (if p.2 < 0.5 then [PathStep.revision p.1 10 "Concept reinforcement + recall"]
              else [])) := by
    cases tm with
    | nil => cases hne rfl
    | cons a l =>
        show (sorted_topics (a :: l)).flatMap
            (pathStepsFor td (total_inverse (sorted_topics (a :: l))) dt) = _
        rw [hti]
        rfl
  refine ⟨h1, ?_⟩
  intro topic ms lv df mins acts hmem
  rw [h1] at hmem
  obtain ⟨p, hp, hstep⟩ := List.mem_flatMap.1 hmem
  rcases List.mem_cons.1 hstep with heq | hrest
  · obtain ⟨-, -, -, -, hmins, -⟩ := PathStep.study.inj heq
    rw [hmins]
    exact le_max_left _ _
  · by_cases hlt : p.2 < (0.5 : ℚ) <;> simp [hlt] at hrest

/-- C4 witness: the theorem applied at a concrete one-topic mapping. -/
theorem generate_learning_path_alloc_c4_witness :
    generate_learning_path [("a", (1 : ℚ)/2)] [] 60 =
      (sorted_topics [("a", (1 : ℚ)/2)]).flatMap (fun p =>
        PathStep.study p.1 (roundTo 3 p.2) (mastery_level p.2)
            ((List.lookup p.1 ([] : List (String × ℚ))).getD 2)
            (max 10 (round ((1 - p.2) / spec_total_inverse [("a", (1 : ℚ)/2)] * 60)))
            (suggest_activities (mastery_level p.2))
          :: (if p.2 < 0.5 then [PathStep.revision p.1 10 "Concept reinforcement + recall"]
              else [])) :=
  (generate_learning_path_alloc_c4 [("a", (1 : ℚ)/2)] [] 60 (by simp)
    (by
      intro p hp
      rw [List.mem_singleton] at hp
      rw [hp]
      norm_num)).1

/-- The `study` pairs of the per-topic blocks are the sorted `(topic, round
3 score)` pairs, in order. -/
theorem studyPairs_flatMap (td : List (String × ℚ)) (ti dt : ℚ) (l : List (String × ℚ)) :
    studyPairs (l.flatMap (pathStepsFor td ti dt)) = l.map (fun p => (p.1, roundTo 3 p.2)) := by
  induction l with
  | nil => rfl
  | cons p ps ih =>
      simp only [List.flatMap_cons, pathStepsFor, List.map_cons]
      by_cases hlt : p.2 < (0.5 : ℚ) <;> simp [hlt, studyPairs, ih]

/-- Inserting an element into a list places it before every element of equal
score, so each equal-score fibre gains the new element at its front. -/
theorem filter_orderedInsert_score (s : ℚ) (x : String × ℚ) (l : List (String × ℚ)) :
    (List.orderedInsert (fun a b => a.2 ≤ b.2) x l).filter (fun p => decide (p.2 = s))
      = if x.2 = s then x :: l.filter (fun p => decide (p.2 = s))
        else l.filter (fun p => decide (p.2 = s)) := by
  induction l with
  | nil => by_cases hx : x.2 = s <;> simp [List.orderedInsert, hx]
  | cons y ys ih =>
      by_cases hr : x.2 ≤ y.2
      · simp only [List.orderedInsert, if_pos hr]
        by_cases hx : x.2 = s <;> simp [List.filter_cons, hx]
      · have hyx : y.2 < x.2 := lt_of_not_le hr
        simp only [List.orderedInsert, if_neg hr]
        by_cases hx : x.2 = s
        · have hy : ¬ y.2 = s := by
            intro he
            rw [he, ← hx] at hyx
            exact lt_irrefl _ hyx
          simp [List.filter_cons, hy, hx, ih]
        · by_cases hy : y.2 = s <;> simp [List.filter_cons, hy, hx, ih]

/-- Each equal-score fibre of the stable sort is the fibre of the input:
equal-score entries keep their original relative order. -/
theorem filter_sorted_topics_score (s : ℚ) (tm : List (String × ℚ)) :
    (sorted_topics tm).filter (fun p => decide (p.2 = s))
      = tm.filter (fun p => decide (p.2 = s)) := by
  unfold sorted_topics
  induction tm with
  | nil => rfl
  | cons x xs ih =>
      show (List.orderedInsert _ x (List.insertionSort _ xs)).filter _ = _
      rw [filter_orderedInsert_score]
      by_cases hx : x.2 = s <;> simp [List.filter_cons, hx, ih]

/-- C8: with non-empty topic_mastery, the study steps appear exactly as the
stable ascending sort of the input by score: their `(topic, mastery_score)`
pairs are the sorted pairs in order, the sorted list is ascending in score,
and every equal-score fibre keeps the input's relative order (stability). -/
theorem generate_learning_path_order_c8 (tm td : List (String × ℚ)) (dt : ℚ)
    (hne : tm ≠ []) :
    studyPairs (generate_learning_path tm td dt)
        = (sorted_topics tm).map (fun p => (p.1, roundTo 3 p.2))
      ∧ List.Sorted (fun a b => a.2 ≤ b.2) (sorted_topics tm)
      ∧ ∀ s : ℚ, (sorted_topics tm).filter (fun p => decide (p.2 = s))
          = tm.filter (fun p => decide (p.2 = s)) := by
  refine ⟨?_, List.sorted_insertionSort _ tm, fun s => filter_sorted_topics_score s tm⟩
  cases tm with
  | nil => cases hne rfl
  | cons a l =>
      show studyPairs ((sorted_topics (a :: l)).flatMap
        (pathStepsFor td (total_inverse (sorted_topics (a :: l))) dt)) = _
      exact studyPairs_flatMap _ _ _ _

/-- C8 witness: the theorem applied at a mapping with a tied score, so the
stable tie-break is exercised. -/
theorem generate_learning_path_order_c8_witness :
    studyPairs (generate_learning_path [("b", (1 : ℚ)/2), ("a", (1 : ℚ)/2), ("c", 0)] [] 60)
      = (sorted_topics [("b", (1 : ℚ)/2), ("a", (1 : ℚ)/2), ("c", 0)]).map
          (fun p => (p.1, roundTo 3 p.2)) :=
  (generate_learning_path_order_c8 [("b", (1 : ℚ)/2), ("a", (1 : ℚ)/2), ("c", 0)] [] 60
    (by simp)).1
